import Mathlib

/-!
Verification of the scroll-visibility controller and related components of
the `Foxeye-Rinx/me` repository (`src/components/AppFrame/index.tsx`).

The controller (`useScrollShower`) keeps a boolean `isShow` flag, updated by
a handler attached to scroll events.  The helper `scrollInfoEvent` (imported
from `@/utils/scroll`, whose source is not part of this tree) turns raw
scroll offsets into `{ direction, diff }` records; it is modelled here from
the specification.  The handler itself, the class strings rendered by
`AppFrame`, and the `RelatedArticle` reducer are embedded directly from the
TypeScript source.
-/

/-- Scroll direction, the `'up' | 'down'` values used by the scroll utility:
`up` means the position decreased (toward the top of the content), `down`
means it increased. -/
inductive Direction where
  | up
  | down
deriving DecidableEq, Repr

/-- The `{ direction, diff }` payload passed to the `scrollInfoEvent`
callback. -/
structure ScrollInfo where
  direction : Direction
  diff : Int
deriving DecidableEq, Repr

/-- Modelled from the spec: the direction classification performed by
`scrollInfoEvent` (`src/utils/scroll` is not in the tree).  Direction is the
sign of the change in scroll offset, classified as toward top (decreasing,
`up`) or away from top (increasing, `down`). -/
def computeDirection (prev current : Int) : Direction :=
  if current < prev then Direction.up else Direction.down

/-- Modelled from the spec: the payload `scrollInfoEvent` computes for one
event — `diff` is the magnitude, the absolute difference between the current
offset and the stored previous one. -/
def scrollInfo (prev current : Int) : ScrollInfo :=
  { direction := computeDirection prev current, diff := |current - prev| }

/-- The callback body inside `useScrollShower` (AppFrame/index.tsx lines
10–16): given the `{ direction, diff }` payload and the current flag value,
it returns the new flag value.  `diff > 14 && direction === 'up'` sets the
flag to true, `diff > 14 && direction === 'down'` sets it to false, any other
event leaves it unchanged. -/
def scrollHandler (info : ScrollInfo) (isShow : Bool) : Bool :=
  if info.diff > 14 ∧ info.direction = Direction.up then true
  else if info.diff > 14 ∧ info.direction = Direction.down then false
  else isShow

/-- The controller state: the stored previous scroll position (held by the
`scrollInfoEvent` closure) and the boolean visibility flag (the `isShow`
React state). -/
structure ScrollState where
  prev : Int
  isShow : Bool
deriving DecidableEq, Repr

/-- One scroll event: the handler runs on the `{ direction, diff }` payload
computed against the stored previous position, and the stored previous
position is updated to the current offset (the spec's always-update rule,
modelled from the spec for the `scrollInfoEvent` part). -/
def scrollStep (s : ScrollState) (current : Int) : ScrollState :=
  { prev := current, isShow := scrollHandler (scrollInfo s.prev current) s.isShow }

/-- A whole sequence of scroll events, processed in order. -/
def scrollRun (s : ScrollState) (events : List Int) : ScrollState :=
  events.foldl scrollStep s

/-- `useScrollShower`'s initial flag value: `useState(init ?? false)` —
the caller-supplied value, defaulting to `false` when absent. -/
def initShow (init : Option Bool) : Bool :=
  init.getD false

/-- Whether every offset in the list is within magnitude 14 of the one
before it (the first compared against `p`). -/
def subThreshold : Int → List Int → Bool
  | _, [] => true
  | p, c :: rest => if |c - p| ≤ 14 then subThreshold c rest else false

/-- The attach/detach lifecycle of the controller's scroll listener
(`addEventListener` / `removeEventListener` in the `useEffect` block).
Events reach the handler only while the listener is attached. -/
structure Controller where
  attached : Bool
  state : ScrollState
deriving DecidableEq, Repr

/-- Modelled from the spec: attaching the scroll observation
(`addEventListener('scroll', fn)` on activation). -/
def attach (c : Controller) : Controller :=
  { c with attached := true }

/-- Modelled from the spec: detaching the scroll observation
(`removeEventListener('scroll', fn)` on deactivation).  Total: detaching a
detached or never-attached controller is a no-op, never an error. -/
def detach (c : Controller) : Controller :=
  { c with attached := false }

/-- Modelled from the spec: the event source firing one scroll event.  The
handler runs only if the listener is attached; a detached controller is
untouched. -/
def deliver (c : Controller) (offset : Int) : Controller :=
  if c.attached then { c with state := scrollStep c.state offset } else c

/-- The whole program state visible to a scroll event: the controller's
two-field state plus everything else, which the handler never touches. -/
structure World (α : Type) where
  controller : ScrollState
  rest : α

/-- A scroll event acting on the whole program state: only the controller's
own two fields are written; the handler performs no other mutation and no
network or storage operation. -/
def worldStep {α : Type} (w : World α) (offset : Int) : World α :=
  { w with controller := scrollStep w.controller offset }

/-- The class tokens `AppFrame` renders on `TheHeader`:  the fixed utility
classes plus `-translate-y-full` exactly when `isShowHeader` is false. -/
def headerClassTokens (isShowHeader : Bool) : List String :=
  ["transform", "md:transform-none", "md:translate-y-0", "transition-transform",
   "duration-300", "delay-500"] ++
    (if isShowHeader then [] else ["-translate-y-full"])

/-- The class tokens `AppFrame` renders on `BottomNavigation`: the fixed
utility classes plus `translate-y-full` exactly when `isShowHeader` is
false.  Both components read the same `isShowHeader` value from the single
`useScrollShower(true)` call. -/
def bottomNavClassTokens (isShowHeader : Bool) : List String :=
  ["transform", "md:hidden", "md:transform-none", "md:translate-y-0",
   "transition-transform", "duration-300", "delay-100"] ++
    (if isShowHeader then [] else ["translate-y-full"])

namespace RelatedArticle

/-- `DataType` of the `RelatedArticle` component: the single variant
`'RECENT'`. -/
inductive DataType where
  | RECENT
deriving DecidableEq, Repr

/-- The reducer state `{ type: DataType }`. -/
structure State where
  type : DataType
deriving DecidableEq, Repr

/-- The reducer action `{ type: 'recent' }`. -/
inductive Action where
  | recent
deriving DecidableEq, Repr

/-- `initialState` of `RelatedArticle`. -/
def initialState : State := { type := DataType.RECENT }

/-- The `RelatedArticle` reducer: ignores both arguments and returns
`{ type: 'RECENT' }`. -/
def reducer (state : State) (action : Action) : State :=
  { type := DataType.RECENT }

/-- The `data` memo of `RelatedArticle`: switches on `state.type`; the one
case `'RECENT'` returns the `articles` prop unchanged. -/
def dataOf {α : Type} (state : State) (articles : List α) : List α :=
  match state.type with
  | DataType.RECENT => articles

end RelatedArticle

lemma scrollHandler_ignored (info : ScrollInfo) (b : Bool) (h : info.diff ≤ 14) :
    scrollHandler info b = b := by
  unfold scrollHandler
  rw [if_neg, if_neg] <;> simp <;> omega

lemma scrollStep_prev (s : ScrollState) (c : Int) : (scrollStep s c).prev = c := rfl

lemma scrollStep_ignored (s : ScrollState) (c : Int) (h : |c - s.prev| ≤ 14) :
    (scrollStep s c).isShow = s.isShow :=
  scrollHandler_ignored _ _ h

lemma scrollRun_subThreshold (events : List Int) :
    ∀ s : ScrollState, subThreshold s.prev events = true →
      (scrollRun s events).isShow = s.isShow := by
  induction events with
  | nil => intro s _; rfl
  | cons c rest ih =>
    intro s h
    unfold subThreshold at h
    by_cases hd : |c - s.prev| ≤ 14
    · rw [if_pos hd] at h
      have hstep : (scrollStep s c).prev = c := rfl
      have := ih (scrollStep s c) (by rw [hstep]; exact h)
      calc (scrollRun s (c :: rest)).isShow
          = (scrollRun (scrollStep s c) rest).isShow := rfl
        _ = (scrollStep s c).isShow := this
        _ = s.isShow := scrollStep_ignored s c hd
    · rw [if_neg hd] at h
      exact absurd h (by simp)

lemma deliver_detached (c : Controller) (h : c.attached = false) (offset : Int) :
    deliver c offset = c := by
  unfold deliver
  rw [h]
  simp

lemma foldl_deliver_detached (events : List Int) :
    ∀ c : Controller, c.attached = false → events.foldl deliver c = c := by
  induction events with
  | nil => intro c _; rfl
  | cons e rest ih =>
    intro c h
    show rest.foldl deliver (deliver c e) = c
    rw [deliver_detached c h e]
    exact ih c h

/-- Claim C1: for every scroll event of magnitude greater than 14, the
update rule sets the flag to true when the position decreases (direction
toward the top) and to false when it increases; in particular offset 80
after prior 100 turns the flag on, and offset 110 after prior 80 turns it
off, whatever the prior flag value. -/
theorem scroll_direction_correct :
    (∀ (s : ScrollState) (c : Int), |c - s.prev| > 14 →
      (c < s.prev → (scrollStep s c).isShow = true) ∧
      (s.prev < c → (scrollStep s c).isShow = false)) ∧
    (∀ b : Bool, (scrollStep ⟨100, b⟩ 80).isShow = true) ∧
    (∀ b : Bool, (scrollStep ⟨80, b⟩ 110).isShow = false) := by
  refine ⟨?_, ?_, ?_⟩
  · intro s c h
    constructor
    · intro hup
      simp [scrollStep, scrollHandler, scrollInfo, computeDirection, hup, h]
    · intro hdown
      have hne : ¬ c < s.prev := by omega
      simp [scrollStep, scrollHandler, scrollInfo, computeDirection, hne, h]
  · intro b; cases b <;> decide
  · intro b; cases b <;> decide

/-- Witness for C1 at the spec's two concrete scenarios. -/
theorem scroll_direction_correct_witness :
    (scrollStep ⟨100, false⟩ 80).isShow = true ∧
    (scrollStep ⟨80, true⟩ 110).isShow = false :=
  ⟨(scroll_direction_correct.1 ⟨100, false⟩ 80 (by decide)).1 (by decide),
   (scroll_direction_correct.1 ⟨80, true⟩ 110 (by decide)).2 (by decide)⟩

/-- Claim C2: along any sequence of offsets whose consecutive magnitudes are
all at most 14, the visibility flag never changes from its initial value
(the statement quantifies over every sequence, hence over every prefix of a
longer run). -/
theorem scroll_threshold_invariant (s : ScrollState) (events : List Int)
    (h : subThreshold s.prev events = true) :
    (scrollRun s events).isShow = s.isShow :=
  scrollRun_subThreshold events s h

/-- Witness for C2: the spec's jitter sequence 100, 105, 108 starting from a
raised flag. -/
theorem scroll_threshold_invariant_witness :
    (scrollRun ⟨100, true⟩ [105, 108]).isShow = true :=
  scroll_threshold_invariant ⟨100, true⟩ [105, 108] (by decide)

/-- Claim C3: the stored previous position becomes the current offset on
every event, ignored or not; concretely, after prior 100 the ignored offset
105 updates the stored position, so a following offset 95 is measured
against 105 (magnitude 10, still ignored) and the run ends at state
(prev 95, flag unchanged). -/
theorem scroll_prev_always_updates :
    (∀ (s : ScrollState) (c : Int), (scrollStep s c).prev = c) ∧
    (∀ b : Bool, (scrollInfo (scrollStep ⟨100, b⟩ 105).prev 95).diff = 10) ∧
    (∀ b : Bool, scrollRun ⟨100, b⟩ [105, 95] = ⟨95, b⟩) := by
  refine ⟨fun s c => rfl, ?_, ?_⟩
  · intro b; cases b <;> decide
  · intro b; cases b <;> decide

/-- Claim C4 counterexample: a scroll event of magnitude exactly 14 in the
upward direction (prior offset 14, new offset 0) does not set the flag to
true — the handler requires `diff > 14` strictly, so the flag stays false. -/
theorem scroll_threshold_14_counterexample :
    (scrollInfo 14 0).diff = 14 ∧ (scrollInfo 14 0).direction = Direction.up ∧
    (scrollStep ⟨14, false⟩ 0).isShow = false := by
  decide

/-- Claim C4 amended: magnitude exactly 14 (indeed any magnitude up to 14)
never triggers an update, for every prior flag value; an update triggers
exactly when the magnitude strictly exceeds 14, and then follows the
direction. -/
theorem scroll_threshold_strict :
    (∀ (b : Bool) (p c : Int), |c - p| ≤ 14 →
      (scrollStep ⟨p, b⟩ c).isShow = b) ∧
    (∀ (b : Bool) (p c : Int), |c - p| > 14 → c < p →
      (scrollStep ⟨p, b⟩ c).isShow = true) ∧
    (∀ (b : Bool) (p c : Int), |c - p| > 14 → p < c →
      (scrollStep ⟨p, b⟩ c).isShow = false) := by
  refine ⟨?_, ?_, ?_⟩
  · intro b p c h
    exact scrollStep_ignored ⟨p, b⟩ c h
  · intro b p c h hup
    exact (scroll_direction_correct.1 ⟨p, b⟩ c h).1 hup
  · intro b p c h hdown
    exact (scroll_direction_correct.1 ⟨p, b⟩ c h).2 hdown

/-- Witness for the amended C4: magnitude exactly 14 leaves a false flag
false, and magnitude 15 upward raises it. -/
theorem scroll_threshold_strict_witness :
    (scrollStep ⟨14, false⟩ 0).isShow = false ∧
    (scrollStep ⟨15, false⟩ 0).isShow = true :=
  ⟨scroll_threshold_strict.1 false 14 0 (by decide),
   scroll_threshold_strict.2.1 false 15 0 (by decide) (by decide)⟩

/-- Claim C5: at mount the flag equals the caller-supplied initial value,
and defaults to false when none is supplied (`useState(init ?? false)`). -/
theorem init_show_correct :
    (∀ b : Bool, initShow (some b) = b) ∧ initShow none = false :=
  ⟨fun b => rfl, rfl⟩

/-- Claim C6: after `detach`, no sequence of scroll events from the still-
firing source changes the visibility flag (the whole controller is in fact
unchanged), and `detach` is idempotent and total — detaching a detached or
never-attached controller is a no-op, not an error. -/
theorem detach_idempotent_no_updates :
    (∀ (c : Controller) (events : List Int),
      events.foldl deliver (detach c) = detach c) ∧
    (∀ c : Controller, detach (detach c) = detach c) := by
  constructor
  · intro c events
    exact foldl_deliver_detached events (detach c) rfl
  · intro c; rfl

/-- Claim C7: a scroll event acting on the whole program state writes only
the controller's own two-field state; every other part of the state is
unchanged (the handler is pure apart from that mutation — no network, no
storage). -/
theorem scroll_frame_effect :
    ∀ (α : Type) (w : World α) (offset : Int),
      (worldStep w offset).rest = w.rest ∧
      (worldStep w offset).controller = scrollStep w.controller offset :=
  fun _ _ _ => ⟨rfl, rfl⟩

/-- Claim C8: for every value of the shared flag, the header carries its
hidden transform `-translate-y-full` iff the bottom navigation carries its
hidden transform `translate-y-full`, and both do so exactly when the flag is
false. -/
theorem header_bottomnav_same_flag :
    ∀ flag : Bool,
      (("-translate-y-full" ∈ headerClassTokens flag) ↔
        ("translate-y-full" ∈ bottomNavClassTokens flag)) ∧
      (("-translate-y-full" ∈ headerClassTokens flag) ↔ flag = false) := by
  intro b
  cases b <;> constructor <;> simp [headerClassTokens, bottomNavClassTokens]

/-- Claim C9: when the magnitude exceeds 14 the new flag value depends only
on the event's direction, not on the prior flag: running the update from
prior flag true and prior flag false gives the same result. -/
theorem scroll_flag_noninterference (p c : Int) (h : |c - p| > 14) :
    (scrollStep ⟨p, true⟩ c).isShow = (scrollStep ⟨p, false⟩ c).isShow := by
  rcases lt_trichotomy c p with hlt | heq | hgt
  · rw [(scroll_direction_correct.1 ⟨p, true⟩ c h).1 hlt,
        (scroll_direction_correct.1 ⟨p, false⟩ c h).1 hlt]
  · exfalso; rw [heq] at h; simp at h
  · rw [(scroll_direction_correct.1 ⟨p, true⟩ c h).2 hgt,
        (scroll_direction_correct.1 ⟨p, false⟩ c h).2 hgt]

/-- Witness for C9 at prior offset 100 and new offset 80. -/
theorem scroll_flag_noninterference_witness :
    (scrollStep ⟨100, true⟩ 80).isShow = (scrollStep ⟨100, false⟩ 80).isShow :=
  scroll_flag_noninterference 100 80 (by decide)

/-- Claim C10: the `RelatedArticle` reducer returns `{ type: 'RECENT' }` for
every state and action, so any sequence of dispatches leaves the state at
`RECENT`, and the rendered data is always exactly the `articles` prop,
unchanged and in order. -/
theorem related_article_always_recent :
    (∀ (s : RelatedArticle.State) (a : RelatedArticle.Action),
      RelatedArticle.reducer s a = RelatedArticle.initialState) ∧
    (∀ actions : List RelatedArticle.Action,
      actions.foldl RelatedArticle.reducer RelatedArticle.initialState =
        RelatedArticle.initialState) ∧
    (∀ (α : Type) (s : RelatedArticle.State) (articles : List α),
      RelatedArticle.dataOf s articles = articles) := by
  refine ⟨fun s a => rfl, ?_, ?_⟩
  · intro actions
    induction actions with
    | nil => rfl
    | cons a rest ih => exact ih
  · intro α s articles
    cases s with
    | mk t => cases t; rfl
